import Mathlib

/-!
Verification of the resource/performance profiling core of the
framework-benchmarks repository, against its natural-language specification.

The development shallowly embeds the relevant parts of
`scripts/benchmark/base.py` and `scripts/benchmark/resource_monitor.py`:

* Python floats are idealized as rationals (`ℚ`); the single genuinely
  irrational operation, `variance ** 0.5` in `_calculate_std_dev`, is
  idealized as `Real.sqrt` on the rational variance.
* Python `round(x, d)` (round-half-to-even on the decimal grid) is embedded
  as `pyRound` / `pyRoundR`.
* Python dicts that are only read and rebuilt are embedded as association
  lists preserving insertion order; the one place where dict identity and
  in-place mutation matter (`BenchmarkRunner._average_results`, which starts
  from a shallow `dict.copy()` of its first input) is additionally embedded
  with an explicit address/store model.
* Fallible effects (DevTools protocol round-trips, per-scenario execution)
  are embedded as explicit `Option`/`Except` values; a function that in
  Python swallows all exceptions and returns a default is embedded as a
  total function.
-/

namespace FrameworkBenchmarks

/-! ### Python numeric helpers

`pyRoundInt` is Python's built-in banker's rounding to an integer
(round-half-to-even); `pyRound q d` is `round(q, d)`.  `mean`, `listMax`,
`listMin` embed `sum(xs)/len(xs)`, `max(xs)`, `min(xs)` (the latter two are
only ever applied to non-empty lists, exactly as in the source, and return 0
on `[]`). -/

def pyRoundInt (q : ℚ) : ℤ :=
  if Int.fract q = 1 / 2 then (if ⌊q⌋ % 2 = 0 then ⌊q⌋ else ⌊q⌋ + 1) else round q

def pyRound (q : ℚ) (d : ℕ) : ℚ :=
  (pyRoundInt (q * (10 : ℚ) ^ d) : ℚ) / (10 : ℚ) ^ d

def mean (xs : List ℚ) : ℚ := xs.sum / (xs.length : ℚ)

def listMax : List ℚ → ℚ
  | [] => 0
  | x :: xs => xs.foldl max x

def listMin : List ℚ → ℚ
  | [] => 0
  | x :: xs => xs.foldl min x

/-! ### Data model: `ResourceSnapshot` and `InteractionMetrics`
(resource_monitor.py, dataclasses at lines 37-58). -/

/-- Embedding of the `ResourceSnapshot` dataclass.  All float fields are
rationals; `process_count` is a natural number. -/
structure ResourceSnapshot where
  timestamp : ℚ
  memory_mb : ℚ
  cpu_percent : ℚ
  process_count : ℕ
  browser_memory_mb : ℚ := 0
  browser_heap_mb : ℚ := 0
  browser_heap_limit_mb : ℚ := 0
deriving DecidableEq, Repr

/-- Embedding of the `InteractionMetrics` dataclass. -/
structure InteractionMetrics where
  name : String
  duration : ℚ
  memory_delta_mb : ℚ
  cpu_peak_percent : ℚ
  cpu_average_percent : ℚ
  heap_delta_mb : ℚ
  samples : List ResourceSnapshot
deriving DecidableEq, Repr

/-! ### SystemResourceMonitor.get_resource_snapshot (lines 159-210)

The psutil process observations made at measurement time are abstracted as a
list: one entry per process matched for the target, carrying whether the
process was still readable after the priming sleep (`alive = false` models
`NoSuchProcess`/`AccessDenied` being raised and swallowed) together with the
CPU percent and resident-set bytes read.  A target resolving to zero
matching processes is the empty list. -/

structure ProcessObservation where
  alive : Bool
  cpu : ℚ
  rss_bytes : ℚ
deriving DecidableEq, Repr

def get_resource_snapshot (timestamp : ℚ) (procs : List ProcessObservation) :
    ResourceSnapshot :=
  if procs.length = 0 then
    { timestamp := timestamp, memory_mb := 0, cpu_percent := 0, process_count := 0 }
  else
    let live := procs.filter (·.alive)
    let total_memory := (live.map (fun p => p.rss_bytes / 1024 / 1024)).sum
    let total_cpu := (live.map (·.cpu)).sum
    let process_count := procs.length - (procs.filter (fun p => !p.alive)).length
    { timestamp := timestamp, memory_mb := total_memory, cpu_percent := total_cpu,
      process_count := process_count }

/-! ### ResourceUsageRunner._calculate_efficiency_score (lines 1081-1090). -/

def calculate_efficiency_score (base_value delta_value : ℚ) : ℚ :=
  if base_value ≤ 0 then (if delta_value ≤ 0 then 95 else 70)
  else
    let r := delta_value / base_value
    let score := max 0 (100 - r * 30)
    min 100 score

/-! ### SystemResourceMonitor.establish_baseline (lines 212-241)

The three idle snapshots taken by the loop are passed in as a list; the
result averages each numeric field (`process_count` through `int(...)`,
i.e. the floor of the non-negative average). -/

def establish_baseline (timestamp : ℚ) (samples : List ResourceSnapshot) :
    ResourceSnapshot :=
  { timestamp := timestamp
    memory_mb := mean (samples.map (·.memory_mb))
    cpu_percent := mean (samples.map (·.cpu_percent))
    process_count := (⌊mean (samples.map (fun s => (s.process_count : ℚ)))⌋).toNat }

/-! ### ResourceUsageRunner._create_interaction_metrics (lines 1018-1058)

`baseline` is `self.system_monitor.baseline` (`none` models Python `None`);
`duration` stands for `time.time() - start_time`. -/

def create_interaction_metrics (baseline : Option ResourceSnapshot)
    (name : String) (duration : ℚ) (samples : List ResourceSnapshot) :
    InteractionMetrics :=
  if samples = [] then
    { name := name, duration := 0, memory_delta_mb := 0, cpu_peak_percent := 0,
      cpu_average_percent := 0, heap_delta_mb := 0, samples := [] }
  else
    let memory_values := samples.map (·.memory_mb)
    let memory_delta_raw :=
      if memory_values = [] then 0 else listMax memory_values - listMin memory_values
    let memory_delta :=
      if memory_delta_raw < 1 ∧ baseline.isSome ∧ memory_values ≠ [] then
        max 0 (mean memory_values - ((baseline.map (·.memory_mb)).getD 0))
      else memory_delta_raw
    let cpu_values := samples.map (·.cpu_percent)
    let cpu_peak := if cpu_values = [] then 0 else listMax cpu_values
    let cpu_average := if cpu_values = [] then 0 else mean cpu_values
    let heap_values := (samples.filter (fun s => 0 < s.browser_heap_mb)).map (·.browser_heap_mb)
    let heap_delta :=
      if heap_values = [] then 0
      else
        let d := listMax heap_values - listMin heap_values
        if d < 1 / 10 ∧ heap_values ≠ [] then mean heap_values else d
    { name := name, duration := duration, memory_delta_mb := memory_delta,
      cpu_peak_percent := cpu_peak, cpu_average_percent := cpu_average,
      heap_delta_mb := heap_delta, samples := samples }

/-- A snapshot with only OS-level memory (no heap data), as produced by
`get_resource_snapshot`.  Used as concrete input for claims C2, C3 and C8. -/
def memSnap (m : ℚ) : ResourceSnapshot :=
  { timestamp := 0, memory_mb := m, cpu_percent := 0, process_count := 1 }

/-- A snapshot additionally carrying browser heap data. -/
def heapSnap (m h : ℚ) : ResourceSnapshot :=
  { timestamp := 0, memory_mb := m, cpu_percent := 0, process_count := 1,
    browser_heap_mb := h }

/-- C5: For every target that resolves to zero matching processes,
the sampler's snapshot has `process_count = 0` and zero-valued `memory_mb`
and `cpu_percent` (and zero browser fields); the embedding is a total
function, so no exception is raised. -/
theorem C5_zero_processes_snapshot (timestamp : ℚ) :
    get_resource_snapshot timestamp [] =
      { timestamp := timestamp, memory_mb := 0, cpu_percent := 0, process_count := 0 } := by
  rfl

/-- C7: With `base > 0` the efficiency score is
`clamp (100 - (delta/base) * 30) 0 100`; with `base ≤ 0` it is the fixed
score 95 when `delta ≤ 0` and 70 otherwise; and every returned score lies
in `[0, 100]`. -/
theorem C7_efficiency_score_clamp (b d : ℚ) :
    (0 < b →
      calculate_efficiency_score b d = max 0 (min 100 (100 - d / b * 30))) ∧
    (b ≤ 0 → calculate_efficiency_score b d = if d ≤ 0 then 95 else 70) ∧
    0 ≤ calculate_efficiency_score b d ∧ calculate_efficiency_score b d ≤ 100 := by
  simp only [calculate_efficiency_score]
  refine ⟨fun hb => ?_, fun hb => ?_, ?_, ?_⟩
  · rw [if_neg (by linarith)]
    simp only [max_def, min_def]
    split_ifs <;> linarith
  · rw [if_pos hb]
  · split_ifs
    · norm_num
    · norm_num
    · simp only [max_def, min_def]; split_ifs <;> linarith
  · split_ifs
    · norm_num
    · norm_num
    · simp only [max_def, min_def]; split_ifs <;> linarith

/-- Witness for C7 at concrete inputs: base 10, delta 5 gives the clamped
formula value 85, and base 0, delta 3 gives the fixed moderate score 70. -/
theorem C7_efficiency_score_clamp_witness :
    calculate_efficiency_score 10 5 = max 0 (min 100 (100 - 5 / 10 * 30)) ∧
    calculate_efficiency_score 0 3 = if (3 : ℚ) ≤ 0 then 95 else 70 :=
  ⟨(C7_efficiency_score_clamp 10 5).1 (by norm_num),
   (C7_efficiency_score_clamp 0 3).2.1 (by norm_num)⟩

/-- C2: For a non-empty sample list and an established baseline, the memory
delta is `max − min` of the sampled memory values; when that span is under
the 1 MB noise threshold it is instead the average sampled memory minus the
baseline memory, clamped at zero; concretely, with a baseline built from
idle memory samples `[100, 100, 100]` and scenario memory samples
`[100, 105, 110]`, the memory delta is 10. -/
theorem C2_memory_delta (b : ResourceSnapshot) (name : String) (duration : ℚ)
    (samples : List ResourceSnapshot) (hne : samples ≠ []) :
    (1 ≤ listMax (samples.map (·.memory_mb)) - listMin (samples.map (·.memory_mb)) →
      (create_interaction_metrics (some b) name duration samples).memory_delta_mb =
        listMax (samples.map (·.memory_mb)) - listMin (samples.map (·.memory_mb))) ∧
    (listMax (samples.map (·.memory_mb)) - listMin (samples.map (·.memory_mb)) < 1 →
      (create_interaction_metrics (some b) name duration samples).memory_delta_mb =
        max 0 (mean (samples.map (·.memory_mb)) - b.memory_mb)) ∧
    (create_interaction_metrics
        (some (establish_baseline 0 [memSnap 100, memSnap 100, memSnap 100]))
        "Initial Load" 1 [memSnap 100, memSnap 105, memSnap 110]).memory_delta_mb = 10 := by
  have hmv : samples.map (·.memory_mb) ≠ [] := by
    simpa using hne
  refine ⟨fun h1 => ?_, fun h1 => ?_, by
    norm_num [create_interaction_metrics, establish_baseline, memSnap, listMax, listMin,
      mean, List.cons_ne_nil]⟩
  · simp only [create_interaction_metrics]
    rw [if_neg hne]
    dsimp only
    rw [if_neg hmv, if_neg (fun hand => (not_lt.mpr h1) hand.1)]
  · simp only [create_interaction_metrics]
    rw [if_neg hne]
    dsimp only
    rw [if_neg hmv, if_pos ⟨h1, rfl, hmv⟩]
    rfl

/-- Witness for C2: both branches exercised at concrete inputs — scenario
samples `[100, 105, 110]` (span 10 ≥ 1) give delta 10, and samples
`[100, 100.5]` against a baseline of memory 100 (span 0.5 < 1) give the
clamped average-above-baseline 0.25. -/
theorem C2_memory_delta_witness :
    (create_interaction_metrics (some (memSnap 100)) "Initial Load" 1
        [memSnap 100, memSnap 105, memSnap 110]).memory_delta_mb =
      listMax [100, 105, 110] - listMin [100, 105, 110] ∧
    (create_interaction_metrics (some (memSnap 100)) "Initial Load" 1
        [memSnap 100, memSnap (201 / 2)]).memory_delta_mb =
      max 0 (mean [100, 201 / 2] - 100) :=
  ⟨(C2_memory_delta (memSnap 100) "Initial Load" 1
      [memSnap 100, memSnap 105, memSnap 110] (by decide)).1
      (by norm_num [memSnap, listMax, listMin]),
   (C2_memory_delta (memSnap 100) "Initial Load" 1
      [memSnap 100, memSnap (201 / 2)] (by decide)).2.1
      (by norm_num [memSnap, listMax, listMin])⟩

/-- Definition following the words of claim C3 (spec text, NOT the source),
for comparison with `create_interaction_metrics`: the heap delta is said to
follow the same max−min-or-average-fallback rule as the memory delta —
max − min of the heap values over samples that carry heap data, falling
back, when the span is under the same 1 MB noise threshold, to the average
of those heap values minus the baseline, clamped at zero; and 0 when no
sample carries heap data. -/
def claimed_heap_delta (baseline_memory : ℚ) (samples : List ResourceSnapshot) : ℚ :=
  let heap_values := (samples.filter (fun s => 0 < s.browser_heap_mb)).map (·.browser_heap_mb)
  if heap_values = [] then 0
  else
    let d := listMax heap_values - listMin heap_values
    if d < 1 then max 0 (mean heap_values - baseline_memory) else d

/-- Counterexample to C3: with a baseline of memory 100 and two scenario
samples whose heap values are both 20 (span 0, i.e. below every threshold),
the source computes heap delta 20 (the plain average of the heap values,
with no baseline subtraction, under its actual 0.1 MB threshold), while the
rule claimed in C3 yields `max 0 (20 − 100) = 0`. -/
theorem C3_heap_delta_counterexample :
    (create_interaction_metrics
        (some (establish_baseline 0 [memSnap 100, memSnap 100, memSnap 100]))
        "UI Interactions" 1 [heapSnap 100 20, heapSnap 100 20]).heap_delta_mb = 20 ∧
    claimed_heap_delta 100 [heapSnap 100 20, heapSnap 100 20] = 0 ∧
    (create_interaction_metrics
        (some (establish_baseline 0 [memSnap 100, memSnap 100, memSnap 100]))
        "UI Interactions" 1 [heapSnap 100 20, heapSnap 100 20]).heap_delta_mb ≠
      claimed_heap_delta 100 [heapSnap 100 20, heapSnap 100 20] := by
  refine ⟨?_, ?_, ?_⟩ <;>
    norm_num [create_interaction_metrics, claimed_heap_delta, establish_baseline,
      memSnap, heapSnap, listMax, listMin, mean, max_def, List.cons_ne_nil]

/-- C3 as amended: the heap delta is computed only over samples whose
`browser_heap_mb` is positive; it is `max − min` of those heap values, and
when that span is under the 0.1 MB threshold (not 1 MB) it falls back to
the plain average of the heap values, with no baseline subtraction; when no
sample carries heap data it is 0. -/
theorem C3_heap_delta_amended (baseline : Option ResourceSnapshot) (name : String)
    (duration : ℚ) (samples : List ResourceSnapshot) :
    (((samples.filter (fun s => 0 < s.browser_heap_mb)).map (·.browser_heap_mb)) = [] →
      (create_interaction_metrics baseline name duration samples).heap_delta_mb = 0) ∧
    (∀ hv, hv = ((samples.filter (fun s => 0 < s.browser_heap_mb)).map (·.browser_heap_mb)) →
      hv ≠ [] →
      (1 / 10 ≤ listMax hv - listMin hv →
        (create_interaction_metrics baseline name duration samples).heap_delta_mb =
          listMax hv - listMin hv) ∧
      (listMax hv - listMin hv < 1 / 10 →
        (create_interaction_metrics baseline name duration samples).heap_delta_mb =
          mean hv)) := by
  constructor
  · intro h0
    by_cases hs : samples = []
    · subst hs; rfl
    · simp only [create_interaction_metrics]
      rw [if_neg hs]
      dsimp only
      rw [if_pos h0]
  · rintro hv rfl hne
    have hs : samples ≠ [] := by
      intro h; subst h; exact hne rfl
    constructor
    · intro hge
      simp only [create_interaction_metrics]
      rw [if_neg hs]
      dsimp only
      rw [if_neg hne, if_neg (fun hand => (not_lt.mpr hge) hand.1)]
    · intro hlt
      simp only [create_interaction_metrics]
      rw [if_neg hs]
      dsimp only
      rw [if_neg hne, if_pos ⟨hlt, hne⟩]

/-- Witness for C3 as amended: no heap data in `[100, 105, 110]` gives heap
delta 0; heap values `[10, 12]` (span 2 ≥ 0.1) give 2; heap values
`[20, 20]` (span 0 < 0.1) give the plain average 20. -/
theorem C3_heap_delta_amended_witness :
    (create_interaction_metrics (some (memSnap 100)) "Initial Load" 1
        [memSnap 100, memSnap 105, memSnap 110]).heap_delta_mb = 0 ∧
    (create_interaction_metrics (some (memSnap 100)) "Weather Search" 1
        [heapSnap 100 10, heapSnap 100 12]).heap_delta_mb =
      listMax [10, 12] - listMin [10, 12] ∧
    (create_interaction_metrics (some (memSnap 100)) "Memory Stress" 1
        [heapSnap 100 20, heapSnap 100 20]).heap_delta_mb = mean [20, 20] :=
  ⟨(C3_heap_delta_amended (some (memSnap 100)) "Initial Load" 1
      [memSnap 100, memSnap 105, memSnap 110]).1 (by decide),
   ((C3_heap_delta_amended (some (memSnap 100)) "Weather Search" 1
      [heapSnap 100 10, heapSnap 100 12]).2 [10, 12] (by decide) (by decide)).1
      (by norm_num [listMax, listMin]),
   ((C3_heap_delta_amended (some (memSnap 100)) "Memory Stress" 1
      [heapSnap 100 20, heapSnap 100 20]).2 [20, 20] (by decide) (by decide)).2
      (by norm_num [listMax, listMin])⟩

/-! ### Scenario loop of ResourceUsageRunner._measure_framework_resources_simple
(lines 940-956)

The four fixed, ordered scenarios.  Executing one scenario (its sampling and
DevTools side effects) is abstracted as a function from the scenario name to
`Except`: `.ok` is the metrics the scenario function returned, `.error` is
the exception it raised.  The loop appends the metrics of a successful
scenario and, on an exception, prints and continues with the next scenario
(`Except.toOption`), never re-raising. -/

def scenario_names : List String :=
  ["Initial Load", "Weather Search", "UI Interactions", "Memory Stress"]

def run_scenarios (outcome : String → Except String InteractionMetrics) :
    List InteractionMetrics :=
  scenario_names.filterMap (fun nm => (outcome nm).toOption)

/-- C6: The profiler runs exactly the 4 fixed, ordered scenarios and returns
at most 4 metrics records; every metrics record in the output comes from a
scenario that finished without error; every scenario that finished without
error contributes its metrics even when other scenarios raised; and when
exactly "Weather Search" raises, the output is the other three scenarios'
metrics in order.  The embedding is a total function: no scenario error
surfaces to the caller. -/
theorem C6_scenario_loop :
    (∀ outcome, (run_scenarios outcome).length ≤ 4) ∧
    (∀ outcome nm m, nm ∈ scenario_names → outcome nm = Except.ok m →
      m ∈ run_scenarios outcome) ∧
    (∀ outcome m, m ∈ run_scenarios outcome →
      ∃ nm, nm ∈ scenario_names ∧ outcome nm = Except.ok m) ∧
    (∀ (m1 m3 m4 : InteractionMetrics) (e : String),
      run_scenarios (fun nm =>
        if nm = "Initial Load" then Except.ok m1
        else if nm = "Weather Search" then Except.error e
        else if nm = "UI Interactions" then Except.ok m3
        else Except.ok m4) = [m1, m3, m4]) := by
  have htoOption : ∀ (x : Except String InteractionMetrics) (m : InteractionMetrics),
      x.toOption = some m ↔ x = Except.ok m := by
    intro x m
    cases x <;> simp [Except.toOption]
  refine ⟨fun outcome => ?_, fun outcome nm m hmem hok => ?_, fun outcome m hm => ?_,
    fun m1 m3 m4 e => ?_⟩
  · simpa [run_scenarios] using
      List.length_filterMap_le (fun nm => (outcome nm).toOption) scenario_names
  · simp only [run_scenarios, List.mem_filterMap]
    exact ⟨nm, hmem, by rw [htoOption]; exact hok⟩
  · simp only [run_scenarios, List.mem_filterMap] at hm
    obtain ⟨nm, hmem, hsome⟩ := hm
    exact ⟨nm, hmem, (htoOption _ _).mp hsome⟩
  · simp [run_scenarios, scenario_names, Except.toOption]

/-- Witness for C6: with every scenario succeeding with a fixed metrics
record, that record is in the output, and the output has length at most 4. -/
theorem C6_scenario_loop_witness :
    (⟨"x", 0, 0, 0, 0, 0, []⟩ : InteractionMetrics) ∈
      run_scenarios (fun _ => Except.ok ⟨"x", 0, 0, 0, 0, 0, []⟩) ∧
    (run_scenarios (fun _ => Except.ok (⟨"x", 0, 0, 0, 0, 0, []⟩ :
      InteractionMetrics))).length ≤ 4 :=
  ⟨C6_scenario_loop.2.1 (fun _ => Except.ok ⟨"x", 0, 0, 0, 0, 0, []⟩)
      "Initial Load" ⟨"x", 0, 0, 0, 0, 0, []⟩ (by simp [scenario_names]) rfl,
   C6_scenario_loop.1 (fun _ => Except.ok ⟨"x", 0, 0, 0, 0, 0, []⟩)⟩

/-! ### BrowserResourceMonitor.get_memory_usage (lines 371-412)

The returned Python dict is embedded as an association list over `JVal`.
The state of the DevTools round-trips inside the `try` block is abstracted
as `perf_response : Except Unit (Option (List (String × ℚ)))`:

* `.error ()` — some step of the body raised (the `except` branch runs);
* `.ok none` — the `Performance.getMetrics` round-trip produced a reply
  without `result.metrics` (as `send_command` does after swallowing a
  transport error, returning `{}`);
* `.ok (some metrics)` — a reply carrying the named metric values, read
  with `metrics.get(name, 0.0)` defaulting.

The embedding is a total function: `get_memory_usage` never raises. -/

inductive JVal where
  | num (q : ℚ)
  | bool (b : Bool)
deriving DecidableEq, Repr

def get_memory_usage (websocket_connected : Bool)
    (perf_response : Except Unit (Option (List (String × ℚ)))) :
    List (String × JVal) :=
  if !websocket_connected then [("connection_working", JVal.bool false)]
  else
    match perf_response with
    | Except.error _ =>
        [("heap_used_mb", JVal.num 0), ("heap_total_mb", JVal.num 0),
         ("connection_working", JVal.bool false)]
    | Except.ok none =>
        [("heap_used_mb", JVal.num 0), ("heap_total_mb", JVal.num 0),
         ("connection_working", JVal.bool true), ("no_heap_data", JVal.bool true)]
    | Except.ok (some ms) =>
        let used := (ms.lookup "JSHeapUsedSize").getD 0
        let total := (ms.lookup "JSHeapTotalSize").getD 0
        [("heap_used_mb", JVal.num (used / (1024 * 1024))),
         ("heap_total_mb", JVal.num (total / (1024 * 1024))),
         ("connection_working", JVal.bool true)]

/-- Counterexample to C4: on a closed/nonexistent connection the returned
dict is `{"connection_working": False}` only — it carries NO
`heap_used_mb`/`heap_total_mb` keys at all, so the claim that the result has
`heap_used_mb == 0` and `heap_total_mb == 0` is false (reading the key
would raise `KeyError`; callers only see 0 through `.get(..., 0)`). -/
theorem C4_heap_usage_counterexample :
    (get_memory_usage false (Except.ok none)).lookup "heap_used_mb" = none ∧
    (get_memory_usage false (Except.ok none)).lookup "heap_total_mb" = none ∧
    ¬ ((get_memory_usage false (Except.ok none)).lookup "heap_used_mb" =
        some (JVal.num 0)) ∧
    (get_memory_usage false (Except.ok none)).lookup "connection_working" =
      some (JVal.bool false) := by
  refine ⟨rfl, rfl, by decide, rfl⟩

/-- C4 as amended: on a closed/nonexistent connection `get_memory_usage`
returns exactly `{"connection_working": False}` (the heap keys are absent;
callers reading them with a default of 0 see 0), and a failure raised
inside the heap-introspection body returns explicit zero-valued heap fields
with `connection_working = False`; in both cases the function is total —
heap introspection never aborts profiling. -/
theorem C4_heap_usage_amended
    (perf_response : Except Unit (Option (List (String × ℚ)))) :
    get_memory_usage false perf_response =
      [("connection_working", JVal.bool false)] ∧
    ((get_memory_usage false perf_response).lookup "heap_used_mb").getD (JVal.num 0) =
      JVal.num 0 ∧
    ((get_memory_usage false perf_response).lookup "heap_total_mb").getD (JVal.num 0) =
      JVal.num 0 ∧
    get_memory_usage true (Except.error ()) =
      [("heap_used_mb", JVal.num 0), ("heap_total_mb", JVal.num 0),
       ("connection_working", JVal.bool false)] :=
  ⟨rfl, rfl, rfl, rfl⟩

/-! ### BrowserResourceMonitor.send_command (lines 351-369)

The WebSocket is embedded as a state: `session_id` (the monotonically
bumped command id), the queue of frames the socket will deliver to `recv`,
and the trace of request frames written by `send`.  An empty `incoming`
queue models `recv` raising (the exception is swallowed: `{}` — here
`none` — is returned, and `session_id` is NOT incremented).  Otherwise the
call returns the next delivered frame verbatim, whatever its id or method,
and increments `session_id`. -/

structure CDPFrame where
  frame_id : Option ℕ
  frame_method : Option String
deriving DecidableEq, Repr

structure SentRequest where
  req_id : ℕ
  req_method : String
deriving DecidableEq, Repr

structure WsState where
  session_id : ℕ
  incoming : List CDPFrame
  sent : List SentRequest
deriving DecidableEq, Repr

def send_command (method : String) (st : WsState) : Option CDPFrame × WsState :=
  match st.incoming with
  | [] => (none, { st with sent := st.sent ++ [⟨st.session_id, method⟩] })
  | f :: rest =>
      (some f, { session_id := st.session_id + 1, incoming := rest,
                 sent := st.sent ++ [⟨st.session_id, method⟩] })

/-- Counterexample to C10: with an unrelated `Page.loadEventFired` event
notification queued ahead of the actual response to id 7, `send_command`
returns the notification — the value returned is NOT the response
correlated to the call's id, and the notification is neither buffered nor
ignored. -/
theorem C10_send_command_counterexample :
    (send_command "Performance.getMetrics"
        ⟨7, [⟨none, some "Page.loadEventFired"⟩, ⟨some 7, none⟩], []⟩).1 =
      some ⟨none, some "Page.loadEventFired"⟩ ∧
    ((send_command "Performance.getMetrics"
        ⟨7, [⟨none, some "Page.loadEventFired"⟩, ⟨some 7, none⟩], []⟩).1.map
      (·.frame_id)) ≠ some (some 7) := by
  refine ⟨rfl, by decide⟩

/-- C10 as amended: requests carry ids that increase by one across
successful calls (two consecutive calls send ids `n` and `n + 1` when the
first call's receive succeeds); but the value returned for a call is simply
the next frame delivered by the socket, whatever it is — no id correlation
is performed and interleaved event notifications are returned, not buffered
or ignored; and when the receive fails, the id is not bumped, so the next
request reuses the same id. -/
theorem C10_send_command_amended (st : WsState) (m1 m2 : String) :
    (∀ f rest, st.incoming = f :: rest →
      (send_command m1 st).1 = some f ∧
      ((send_command m2 (send_command m1 st).2).2).sent =
        st.sent ++ [⟨st.session_id, m1⟩, ⟨st.session_id + 1, m2⟩]) ∧
    (st.incoming = [] →
      (send_command m1 st).1 = none ∧
      ((send_command m1 st).2).session_id = st.session_id ∧
      ((send_command m1 st).2).sent = st.sent ++ [⟨st.session_id, m1⟩]) := by
  constructor
  · rintro f rest hinc
    refine ⟨by simp [send_command, hinc], ?_⟩
    simp only [send_command, hinc]
    cases rest <;> simp
  · intro hinc
    refine ⟨by simp [send_command, hinc], by simp [send_command, hinc], by simp [send_command, hinc]⟩

/-- Witness for C10 as amended: a concrete two-call exchange starting at
id 7 with two frames queued sends ids 7 then 8; and a call on a socket
that delivers nothing returns `none` and keeps id 7. -/
theorem C10_send_command_amended_witness :
    (send_command "Page.enable" ⟨7, [⟨some 7, none⟩, ⟨some 8, none⟩], []⟩).1 =
      some ⟨some 7, none⟩ ∧
    ((send_command "Page.navigate"
        (send_command "Page.enable" ⟨7, [⟨some 7, none⟩, ⟨some 8, none⟩], []⟩).2).2).sent =
      [⟨7, "Page.enable"⟩, ⟨8, "Page.navigate"⟩] ∧
    (send_command "Page.enable" ⟨7, [], []⟩).1 = none ∧
    ((send_command "Page.enable" ⟨7, [], []⟩).2).session_id = 7 :=
  ⟨((C10_send_command_amended ⟨7, [⟨some 7, none⟩, ⟨some 8, none⟩], []⟩
      "Page.enable" "Page.navigate").1 ⟨some 7, none⟩ [⟨some 8, none⟩] rfl).1,
   by simpa using ((C10_send_command_amended ⟨7, [⟨some 7, none⟩, ⟨some 8, none⟩], []⟩
      "Page.enable" "Page.navigate").1 ⟨some 7, none⟩ [⟨some 8, none⟩] rfl).2,
   ((C10_send_command_amended ⟨7, [], []⟩ "Page.enable" "Page.enable").2 rfl).1,
   ((C10_send_command_amended ⟨7, [], []⟩ "Page.enable" "Page.enable").2 rfl).2.1⟩

/-! ### InteractionMetrics.to_dict (lines 60-81) and
ResourceUsageRunner._calculate_summary_metrics (lines 1060-1079)

The JSON dict values are embedded in `MVal`; keys and their order follow
the source. -/

inductive MVal where
  | s (v : String)
  | q (v : ℚ)
  | n (v : ℕ)
  | arr (v : List (List (String × ℚ)))
deriving DecidableEq, Repr

def snapshot_to_dict (s : ResourceSnapshot) : List (String × ℚ) :=
  [("timestamp", s.timestamp), ("memory_mb", s.memory_mb),
   ("cpu_percent", s.cpu_percent), ("process_count", (s.process_count : ℚ)),
   ("browser_memory_mb", s.browser_memory_mb),
   ("browser_heap_mb", s.browser_heap_mb),
   ("browser_heap_limit_mb", s.browser_heap_limit_mb)]

def to_dict (m : InteractionMetrics) : List (String × MVal) :=
  [("name", MVal.s m.name), ("duration", MVal.q m.duration),
   ("memory_delta_mb", MVal.q m.memory_delta_mb),
   ("cpu_peak_percent", MVal.q m.cpu_peak_percent),
   ("cpu_average_percent", MVal.q m.cpu_average_percent),
   ("heap_delta_mb", MVal.q m.heap_delta_mb),
   ("sample_count", MVal.n m.samples.length),
   ("samples", MVal.arr (m.samples.map snapshot_to_dict))]

def calculate_summary_metrics (interactions : List InteractionMetrics)
    (final_usage : ResourceSnapshot) : List (String × ℚ) :=
  if interactions = [] then []
  else
    let total_memory_delta := (interactions.map (·.memory_delta_mb)).sum
    let peak_cpu := listMax (interactions.map (·.cpu_peak_percent))
    let average_cpu := mean (interactions.map (·.cpu_average_percent))
    let total_heap_delta := (interactions.map (·.heap_delta_mb)).sum
    [("total_memory_delta_mb", total_memory_delta),
     ("peak_cpu_percent", peak_cpu),
     ("average_cpu_percent", average_cpu),
     ("total_heap_delta_mb", total_heap_delta),
     ("final_app_memory_mb", final_usage.memory_mb),
     ("final_app_cpu_percent", final_usage.cpu_percent),
     ("memory_efficiency_score",
       calculate_efficiency_score final_usage.memory_mb total_memory_delta),
     ("cpu_efficiency_score",
       calculate_efficiency_score average_cpu peak_cpu)]

/-- Counterexample to C9: a serialized `InteractionMetrics` does not carry a
field named `duration_s` — the source emits the key `duration` — and it
carries an extra `sample_count` field the claim's "exactly" excludes, shown
here on a concrete metrics record. -/
theorem C9_to_dict_counterexample :
    ¬ ("duration_s" ∈ (to_dict ⟨"Initial Load", 2, 10, 50, 25, 1, []⟩).map Prod.fst) ∧
    "sample_count" ∈ (to_dict ⟨"Initial Load", 2, 10, 50, 25, 1, []⟩).map Prod.fst ∧
    (to_dict ⟨"Initial Load", 2, 10, 50, 25, 1, []⟩).map Prod.fst ≠
      ["name", "duration_s", "memory_delta_mb", "cpu_peak_percent",
       "cpu_average_percent", "heap_delta_mb", "samples"] := by
  refine ⟨by decide, by decide, by decide⟩

/-- C9 as amended: every serialized `InteractionMetrics` carries exactly the
fields `name`, `duration` (not `duration_s`), `memory_delta_mb`,
`cpu_peak_percent`, `cpu_average_percent`, `heap_delta_mb`, `sample_count`
and the `samples` sequence, in that order; and for every non-empty
interaction list the summary retains the stable field name
`memory_efficiency_score`. -/
theorem C9_to_dict_amended (m : InteractionMetrics)
    (interactions : List InteractionMetrics) (final_usage : ResourceSnapshot)
    (hne : interactions ≠ []) :
    (to_dict m).map Prod.fst =
      ["name", "duration", "memory_delta_mb", "cpu_peak_percent",
       "cpu_average_percent", "heap_delta_mb", "sample_count", "samples"] ∧
    "memory_efficiency_score" ∈
      (calculate_summary_metrics interactions final_usage).map Prod.fst := by
  refine ⟨rfl, ?_⟩
  simp only [calculate_summary_metrics, if_neg hne]
  simp

/-- Witness for C9 as amended, at a concrete metrics record and a singleton
interaction list. -/
theorem C9_to_dict_amended_witness :
    (to_dict ⟨"Initial Load", 2, 10, 50, 25, 1, []⟩).map Prod.fst =
      ["name", "duration", "memory_delta_mb", "cpu_peak_percent",
       "cpu_average_percent", "heap_delta_mb", "sample_count", "samples"] ∧
    "memory_efficiency_score" ∈
      (calculate_summary_metrics [⟨"Initial Load", 2, 10, 50, 25, 1, []⟩]
        (memSnap 100)).map Prod.fst :=
  C9_to_dict_amended ⟨"Initial Load", 2, 10, 50, 25, 1, []⟩
    [⟨"Initial Load", 2, 10, 50, 25, 1, []⟩] (memSnap 100) (by decide)

/-! ### BenchmarkRunner._average_results, aliasing of the shallow copy
(base.py, lines 167-255)

`averaged_data = results[0].data.copy()` is a SHALLOW copy: the nested
`averaged_data["scores"]` dict is the very same object as
`results[0].data["scores"]`.  To express this, the nested scores dicts live
in an explicit store addressed by naturals; each benchmark result holds the
address of its scores dict.  The loop over the score names of
`averaged_data["scores"]` collects, for each name, the values of that score
over all results (reading the current store, as Python does — values for a
name are read before that name is overwritten), then writes the rounded
mean through the shared address. -/

abbrev ScoresDict := List (String × ℚ)

abbrev ScoresStore := ℕ → ScoresDict

structure PyRunResult where
  framework : String
  scores_addr : ℕ
  success : Bool
deriving DecidableEq, Repr

def dict_set (d : ScoresDict) (k : String) (v : ℚ) : ScoresDict :=
  if d.any (fun p => p.1 = k) then d.map (fun p => if p.1 = k then (k, v) else p)
  else d ++ [(k, v)]

def store_set (st : ScoresStore) (a : ℕ) (d : ScoresDict) : ScoresStore :=
  fun a2 => if a2 = a then d else st a2

def average_results_scores_inplace (results : List PyRunResult)
    (store : ScoresStore) : ScoresStore :=
  match results with
  | [] => store
  | r0 :: _ =>
    ((store r0.scores_addr).map Prod.fst).foldl
      (fun st key =>
        let values := results.filterMap (fun r => (st r.scores_addr).lookup key)
        if values = [] then st
        else store_set st r0.scores_addr
          (dict_set (st r0.scores_addr) key (pyRound (mean values) 1)))
      store

/-- C8 is right about the intent and the code is wrong: averaging two
successful results whose scores dicts hold `performance = 10` (at address
0, owned by the first input result) and `performance = 20` (at address 1)
overwrites the first input's nested scores dict through the shared shallow
copy — after `_average_results` runs, `results[0].data["scores"]
["performance"]` is 15, no longer its original 10, so the input
`ProfileResult` is mutated, contradicting the claimed purity (and the
evident intent of the `.copy()` call). -/
theorem C8_average_mutates_first_input :
    (average_results_scores_inplace
        [⟨"run1", 0, true⟩, ⟨"run2", 1, true⟩]
        (fun a => if a = 0 then [("performance", 10)] else [("performance", 20)]) 0).lookup
      "performance" = some 15 ∧
    ((fun a => if a = 0 then [("performance", (10 : ℚ))] else [("performance", 20)])
        (0 : ℕ)).lookup "performance" = some 10 ∧
    (average_results_scores_inplace
        [⟨"run1", 0, true⟩, ⟨"run2", 1, true⟩]
        (fun a => if a = 0 then [("performance", 10)] else [("performance", 20)]) 1).lookup
      "performance" = some 20 := by
  have h15 : pyRound (mean [10, 20]) 1 = 15 := by
    norm_num [pyRound, pyRoundInt, mean, Int.fract]
  refine ⟨?_, by decide, ?_⟩ <;>
  · simp only [average_results_scores_inplace]
    norm_num [store_set, dict_set, List.lookup, List.foldl, List.filterMap, h15]

/-! ### BenchmarkRunner._calculate_std_dev (base.py, lines 257-264)

The guard and the sample variance (N−1 denominator) are exact rational
arithmetic; the final `variance ** 0.5` is idealized as `Real.sqrt`, so the
standard deviations carried in averaged statistics are real numbers. -/

def calculate_std_dev_sq (values : List ℚ) : ℚ :=
  if values.length ≤ 1 then 0
  else ((values.map (fun x => (x - mean values) ^ 2)).sum) / ((values.length : ℚ) - 1)

noncomputable def calculate_std_dev (values : List ℚ) : ℝ :=
  Real.sqrt ((calculate_std_dev_sq values : ℚ) : ℝ)

open Classical in
/-- Python `round(x, d)` on the real resulting from the square root: same
banker's rounding, on `ℝ`. -/
noncomputable def pyRoundIntR (x : ℝ) : ℤ :=
  if Int.fract x = 1 / 2 then (if ⌊x⌋ % 2 = 0 then ⌊x⌋ else ⌊x⌋ + 1) else round x

noncomputable def pyRoundR (x : ℝ) (d : ℕ) : ℝ :=
  (pyRoundIntR (x * (10 : ℝ) ^ d) : ℝ) / (10 : ℝ) ^ d

/-! ### Data model of `BenchmarkResult.data` for averaging (base.py)

`data` is a JSON dict; `_average_results` touches only its `"scores"` and
`"metrics"` entries, embedded as insertion-ordered association lists (an
absent key behaves as the empty dict on both the read side —
`r.data.get("scores", {})` — and the iteration side).  A metric entry has
optional `value` and `score` numbers; the `displayValue` string (pure
presentation re-formatting in `_average_results`) is not modelled.  The
`execution_stats` entry added by averaging is embedded structurally,
including its nested `statistics` blocks. -/

structure MetricEntry where
  value : Option ℚ
  score : Option ℚ
deriving DecidableEq, Repr

structure ScoreStats where
  stat_min : ℚ
  stat_max : ℚ
  std_dev : ℝ

structure MetricStats where
  stat_min : ℚ
  stat_max : ℚ
  std_dev : ℝ
  score_min : Option ℚ
  score_max : Option ℚ
  score_std_dev : Option ℝ

structure StatisticsData where
  scores : List (String × ScoreStats)
  metrics : List (String × MetricStats)

structure ExecutionStats where
  total_executions : ℕ
  successful_executions : ℕ
  failed_executions : ℕ
  averaged : Bool
  statistics : StatisticsData

structure BenchData where
  scores : List (String × ℚ)
  metrics : List (String × MetricEntry)
  execution_stats : Option ExecutionStats

structure BenchmarkResult where
  framework : String
  data : BenchData
  success : Bool
  error_message : Option String

/-! ### BenchmarkRunner._average_results (base.py, lines 167-255)

Functional embedding of the values computed (the in-place aliasing of the
shallow `dict.copy()` is treated separately, see
`average_results_scores_inplace`): the score names iterated are those of
`results[0]`; for each, the values are collected over all results that have
that score; score means are rounded to 1 decimal, metric means are not
rounded; statistics round min/max of scores to 1 decimal, of metric values
to 2, of metric sub-scores to 3, and standard deviations to 2 (3 for metric
sub-scores), with 0.0 when only one value exists. -/

noncomputable def average_results (framework : String)
    (results : List BenchmarkResult) (failed_count : ℕ) : BenchmarkResult :=
  match results with
  | [] => ⟨framework, ⟨[], [], none⟩, true, none⟩
  | r0 :: _ =>
    let scoreValues := fun (nm : String) =>
      results.filterMap (fun r => r.data.scores.lookup nm)
    let newScores := r0.data.scores.map (fun p =>
      let vs := scoreValues p.1
      (p.1, if vs = [] then p.2 else pyRound (mean vs) 1))
    let score_stats := r0.data.scores.filterMap (fun p =>
      let vs := scoreValues p.1
      if vs = [] then none
      else some (p.1,
        ({ stat_min := pyRound (listMin vs) 1, stat_max := pyRound (listMax vs) 1,
           std_dev := if 1 < vs.length then pyRoundR (calculate_std_dev vs) 2 else 0 } :
          ScoreStats)))
    let numValues := fun (nm : String) =>
      results.filterMap (fun r => (r.data.metrics.lookup nm).bind (·.value))
    let scValues := fun (nm : String) =>
      results.filterMap (fun r => (r.data.metrics.lookup nm).bind (·.score))
    let newMetrics := r0.data.metrics.map (fun p =>
      let nv := numValues p.1
      let sv := scValues p.1
      (p.1, ({ value := if nv = [] then p.2.value else some (mean nv),
               score := if sv = [] then p.2.score else some (mean sv) } : MetricEntry)))
    let metric_stats := r0.data.metrics.filterMap (fun p =>
      let nv := numValues p.1
      if nv = [] then none
      else
        let sv := scValues p.1
        some (p.1,
          ({ stat_min := pyRound (listMin nv) 2, stat_max := pyRound (listMax nv) 2,
             std_dev := if 1 < nv.length then pyRoundR (calculate_std_dev nv) 2 else 0,
             score_min := if sv = [] then none else some (pyRound (listMin sv) 3),
             score_max := if sv = [] then none else some (pyRound (listMax sv) 3),
             score_std_dev := if sv = [] then none else
               some (if 1 < sv.length then pyRoundR (calculate_std_dev sv) 3 else 0) } :
            MetricStats)))
    ⟨framework,
      ⟨newScores, newMetrics,
        some ⟨results.length + failed_count, results.length, failed_count, true,
          ⟨score_stats, metric_stats⟩⟩⟩,
      true, none⟩

/-! ### BenchmarkRunner.run_multiple_executions (base.py, lines 139-165)

The per-execution results produced by the `run_single_benchmark` loop are
passed in as a list (in execution order); the function partitions them by
`success`, returns the first failure verbatim when no execution succeeded
(or a fresh empty result when there were no executions at all), and
otherwise averages the successful results with the failure count. -/

noncomputable def run_multiple_executions (framework : String)
    (runs : List BenchmarkResult) : BenchmarkResult :=
  let successful_results := runs.filter (·.success)
  let failed_results := runs.filter (fun r => !r.success)
  if successful_results.isEmpty then
    match failed_results with
    | [] => ⟨framework, ⟨[], [], none⟩, true, none⟩
    | f :: _ => f
  else average_results framework successful_results failed_results.length

/-- Rounding the sample standard deviation of two values 10 and 20 —
`√50` — to two decimals gives 7.07, since `√50 · 100` lies strictly
between 707.1 and 707.11. -/
theorem pyRoundR_sqrt_fifty : pyRoundR (Real.sqrt 50) 2 = 707 / 100 := by
  have h1 : (7071 / 1000 : ℝ) < Real.sqrt 50 := by
    rw [Real.lt_sqrt (by norm_num)]
    norm_num
  have h2 : Real.sqrt 50 < 70711 / 10000 := by
    rw [Real.sqrt_lt' (by norm_num)]
    norm_num
  have hb1 : (7071 / 10 : ℝ) < Real.sqrt 50 * 10 ^ 2 := by nlinarith
  have hb2 : Real.sqrt 50 * 10 ^ 2 < 70711 / 100 := by nlinarith
  have hfl : ⌊Real.sqrt 50 * 10 ^ 2⌋ = 707 := by
    rw [Int.floor_eq_iff]
    constructor
    · push_cast; linarith
    · push_cast; linarith
  have hfr : ¬ Int.fract (Real.sqrt 50 * 10 ^ 2) = 1 / 2 := by
    rw [Int.fract, hfl]
    intro h
    have : Real.sqrt 50 * 10 ^ 2 = 707 + 1 / 2 := by push_cast at h ⊢; linarith
    linarith
  have hrd : round (Real.sqrt 50 * 10 ^ 2) = 707 := by
    rw [round_eq, Int.floor_eq_iff]
    constructor
    · push_cast; linarith
    · push_cast; linarith
  rw [pyRoundR, pyRoundIntR, if_neg hfr, hrd]
  norm_num

/-- C1: the averaging of repeated executions: (1) with at least one
successful run, the averaged result depends only on the successful runs
and the number of failures — failed runs contribute no numeric values;
(2) for 3 executions with one failure and score values 10 and 20, the
result records 3 total / 2 successful / 1 failed executions, the averaged
score is the mean 15, and the statistics are min 10, max 20 and sample
standard deviation (N−1 denominator) `√50` rounded to 7.07; (3) when every
run failed, the first captured failure is returned verbatim. -/
theorem C1_average_statistics :
    (∀ (fw : String) (runs runs2 : List BenchmarkResult),
      runs.filter (·.success) ≠ [] →
      runs.filter (·.success) = runs2.filter (·.success) →
      (runs.filter (fun r => !r.success)).length =
        (runs2.filter (fun r => !r.success)).length →
      run_multiple_executions fw runs = run_multiple_executions fw runs2) ∧
    (∀ e : String,
      run_multiple_executions "fw"
        [⟨"fw", ⟨[("memory", 10)], [], none⟩, true, none⟩,
         ⟨"fw", ⟨[], [], none⟩, false, some e⟩,
         ⟨"fw", ⟨[("memory", 20)], [], none⟩, true, none⟩] =
      ⟨"fw", ⟨[("memory", 15)], [],
        some ⟨3, 2, 1, true, ⟨[("memory", ⟨10, 20, 707 / 100⟩)], []⟩⟩⟩, true, none⟩) ∧
    (∀ (fw : String) (f : BenchmarkResult) (rest : List BenchmarkResult),
      (f :: rest).filter (·.success) = [] →
      run_multiple_executions fw (f :: rest) = f) := by
  refine ⟨fun fw runs runs2 hne hsucc hfail => ?_, fun e => ?_, fun fw f rest hall => ?_⟩
  · have h1 : ¬ (runs.filter (·.success)).isEmpty = true := by
      simp only [List.isEmpty_iff]
      exact hne
    have h2 : ¬ (runs2.filter (·.success)).isEmpty = true := by
      simp only [List.isEmpty_iff]
      rw [← hsucc]
      exact hne
    simp only [run_multiple_executions]
    rw [if_neg h1, if_neg h2, hsucc, hfail]
  · have hstd : pyRoundR (calculate_std_dev [10, 20]) 2 = 707 / 100 := by
      have h50 : calculate_std_dev_sq [10, 20] = 50 := by
        norm_num [calculate_std_dev_sq, mean]
      rw [calculate_std_dev, h50]
      norm_num [pyRoundR_sqrt_fifty]
    have h15 : pyRound (mean [10, 20]) 1 = 15 := by
      norm_num [pyRound, pyRoundInt, mean, Int.fract]
    have h10 : pyRound (listMin [10, 20]) 1 = 10 := by
      norm_num [pyRound, pyRoundInt, listMin, Int.fract]
    have h20 : pyRound (listMax [10, 20]) 1 = 20 := by
      norm_num [pyRound, pyRoundInt, listMax, Int.fract]
    simp only [run_multiple_executions, average_results]
    norm_num [List.filter_cons, List.filterMap, List.lookup, List.cons_ne_nil,
      h15, h10, h20, hstd]
  · have hfs : f.success = false := by
      cases hfs : f.success
      · rfl
      · rw [List.filter_cons, hfs] at hall
        simp at hall
    have hrest : (f :: rest).filter (fun r => !r.success) =
        f :: rest.filter (fun r => !r.success) := by
      rw [List.filter_cons, hfs]
      rfl
    simp only [run_multiple_executions]
    rw [hall, hrest]
    rfl

/-- Witness for C1: (1) moving the failed run of a 3-execution batch from
the middle to the front (and changing its error payload) leaves the
averaged result unchanged; (3) a batch of two failures returns the first
failure verbatim. -/
theorem C1_average_statistics_witness :
    run_multiple_executions "fw"
        [⟨"fw", ⟨[("memory", 10)], [], none⟩, true, none⟩,
         ⟨"fw", ⟨[], [], none⟩, false, some "boom"⟩,
         ⟨"fw", ⟨[("memory", 20)], [], none⟩, true, none⟩] =
      run_multiple_executions "fw"
        [⟨"fw", ⟨[], [], none⟩, false, some "crash"⟩,
         ⟨"fw", ⟨[("memory", 10)], [], none⟩, true, none⟩,
         ⟨"fw", ⟨[("memory", 20)], [], none⟩, true, none⟩] ∧
    run_multiple_executions "fw"
        [⟨"fw", ⟨[], [], none⟩, false, some "boom"⟩,
         ⟨"fw", ⟨[], [], none⟩, false, some "crash"⟩] =
      ⟨"fw", ⟨[], [], none⟩, false, some "boom"⟩ :=
  ⟨C1_average_statistics.1 "fw" _ _ (fun h => List.cons_ne_nil _ _ h) rfl rfl,
   C1_average_statistics.2.2 "fw" _ _ rfl⟩

end FrameworkBenchmarks
